import Mathlib

/-!
Verification of the buy-vs-rent financial engine (`app.py`).

The script's computations are embedded over exact rationals (ℚ).  Globals read
from the sidebar become explicit parameters.  Fallible arithmetic (Python
raises `ZeroDivisionError` on division by zero and on `0.0 ** n` with `n < 0`)
is modelled with `Option`.
-/

/-- One row of the amortization ledger, as appended by the schedule loop:
`[m/12, interest, principal, balance, equity]` (app.py line 66). -/
structure Row where
  year : ℚ
  interest : ℚ
  principal : ℚ
  balance : ℚ
  equity : ℚ
  deriving DecidableEq, Inhabited

/-- app.py line 46: `loan_amt = price*(1-down_pct)`. -/
def loan_amt (price down_pct : ℚ) : ℚ := price * (1 - down_pct)

/-- app.py line 49: `emi = loan_amt*r*(1+r)**n/((1+r)**n-1)` with `n = tenure*12`. -/
def emi (loanAmt r : ℚ) (n : ℕ) : ℚ := loanAmt * r * (1 + r) ^ n / ((1 + r) ^ n - 1)

/-- The same EMI expression with an integer exponent (Python `**` accepts a
negative `n` when `tenure` is negative), returning `none` exactly where Python
raises: on `0.0 ** n` with `n < 0`, and on division by zero. -/
def emiOpt (loanAmt r : ℚ) (n : ℤ) : Option ℚ :=
  if 1 + r = 0 ∧ n < 0 then none
  else if (1 + r) ^ n - 1 = 0 then none
  else some (loanAmt * r * (1 + r) ^ n / ((1 + r) ^ n - 1))

/-- Running balance of the amortization loop (app.py lines 57-63):
`balance = loan_amt`, then each month `balance -= (emi - balance*r)`. -/
def balanceAt (loanAmt e r : ℚ) : ℕ → ℚ
  | 0 => loanAmt
  | m + 1 => balanceAt loanAmt e r m - (e - balanceAt loanAmt e r m * r)

/-- The row appended for month `m` (app.py lines 60-66): interest and principal
are computed from the balance carried in from month `m-1`. -/
def rowAt (price loanAmt e r : ℚ) (m : ℕ) : Row :=
  { year := (m : ℚ) / 12
  , interest := balanceAt loanAmt e r (m - 1) * r
  , principal := e - balanceAt loanAmt e r (m - 1) * r
  , balance := balanceAt loanAmt e r m
  , equity := price - balanceAt loanAmt e r m }

/-- The full ledger for `H` months (`H = exit_year*12`), app.py line 60:
`for m in range(1, exit_year*12+1)`. -/
def sched (price loanAmt e r : ℚ) (H : ℕ) : List Row :=
  (List.range H).map (fun i => rowAt price loanAmt e r (i + 1))

/-- app.py line 101: `sched[sched["Year"].between(y-1,y)]["Interest"].sum()`.
Pandas `between` is inclusive at both ends. -/
def interestYear (rows : List Row) (y : ℚ) : ℚ :=
  ((rows.filter (fun row => decide (y - 1 ≤ row.year ∧ row.year ≤ y))).map Row.interest).sum

/-- app.py line 102, the same inclusive window summed over Principal. -/
def principalYear (rows : List Row) (y : ℚ) : ℚ :=
  ((rows.filter (fun row => decide (y - 1 ≤ row.year ∧ row.year ≤ y))).map Row.principal).sum

/-- Spec-words variant of the interest aggregate: the window is the half-open
interval (y−1, y], as the spec's AnnualAggregate describes it. -/
def interestYearHalfOpen (rows : List Row) (y : ℚ) : ℚ :=
  ((rows.filter (fun row => decide (y - 1 < row.year ∧ row.year ≤ y))).map Row.interest).sum

/-- Spec-words variant of the principal aggregate over the half-open window. -/
def principalYearHalfOpen (rows : List Row) (y : ℚ) : ℚ :=
  ((rows.filter (fun row => decide (y - 1 < row.year ∧ row.year ≤ y))).map Row.principal).sum

/-- app.py lines 75-78: capped deductions times the tax rate (a percentage). -/
def tax_saving (interest principal interest_deduction principal_deduction tax_rate : ℚ) : ℚ :=
  (min interest interest_deduction + min principal principal_deduction) * tax_rate / 100

/-- app.py lines 94-98: the rent cash-flow list before the terminal
adjustment; entry for loop year `y = i+1` is `-(rent0*(1+rg/100)**y*12)`. -/
def cfRentBase (rent0 rg : ℚ) (H : ℕ) : List ℚ :=
  (List.range H).map (fun i => -(rent0 * (1 + rg / 100) ^ (i + 1) * 12))

/-- Models `lst[-1] += x` on a non-empty Python list (on an empty list Python
raises; here the empty list is returned unchanged and callers require
non-emptiness). -/
def addLast : List ℚ → ℚ → List ℚ
  | [], _ => []
  | [a], x => [a + x]
  | a :: b :: rest, x => a :: addLast (b :: rest) x

/-- app.py lines 118-119: `sum(cf/((1+rate/100)**i) for i,cf in enumerate(cfs))`,
written as a recursion carrying the running index. -/
def npvAux (base : ℚ) : ℕ → List ℚ → ℚ
  | _, [] => 0
  | i, cf :: rest => cf / base ^ i + npvAux base (i + 1) rest

/-- The `npv` closure of `compute_npv` (app.py lines 118-119). -/
def npv (rate : ℚ) (cfs : List ℚ) : ℚ := npvAux (1 + rate / 100) 0 cfs

/-- app.py line 122: `real_disc = ((1+disc/100)/(1+inflation/100)-1)*100`. -/
def real_disc (disc inflation : ℚ) : ℚ := ((1 + disc / 100) / (1 + inflation / 100) - 1) * 100

/-- The same computation returning `none` where Python raises
`ZeroDivisionError`, i.e. when `1 + inflation/100 = 0`. -/
def real_discOpt (disc inflation : ℚ) : Option ℚ :=
  if 1 + inflation / 100 = 0 then none else some (real_disc disc inflation)

/-- The sidebar inputs that `compute_npv` closes over (app.py lines 14-40). -/
structure Params where
  price : ℚ
  down_pct : ℚ
  loan_rate : ℚ
  tenure : ℕ
  rent0 : ℚ
  inv_return : ℚ
  inflation : ℚ
  disc : ℚ
  buy_commission : ℚ
  sell_commission : ℚ
  maintenance_pct : ℚ
  tax_rate : ℚ
  interest_deduction : ℚ
  principal_deduction : ℚ
  deriving DecidableEq

/-- app.py line 47: `r = loan_rate/100/12`. -/
def Params.r (p : Params) : ℚ := p.loan_rate / 100 / 12

/-- The loan principal derived from the parameters (app.py line 46). -/
def Params.loanAmt (p : Params) : ℚ := loan_amt p.price p.down_pct

/-- The script's EMI for these parameters (app.py lines 48-49). -/
def Params.emiVal (p : Params) : ℚ := emi p.loanAmt p.r (p.tenure * 12)

/-- app.py lines 86-107: the buy cash-flow list before the resale adjustment.
Index 0 is `-downpayment - buy_comm`; each year appends
`-(emi*12 + maintenance) + tax` where the tax saving aggregates `rows` with
the inclusive year window. -/
def cf_buy_base (p : Params) (rows : List Row) (exit_year : ℕ) : List ℚ :=
  (-(p.price * p.down_pct) - p.price * p.buy_commission / 100) ::
    (List.range exit_year).map (fun i =>
      -(p.emiVal * 12 + p.price * (p.maintenance_pct / 100)) +
        tax_saving (interestYear rows ((i : ℚ) + 1)) (principalYear rows ((i : ℚ) + 1))
          p.interest_deduction p.principal_deduction p.tax_rate)

/-- app.py lines 84-124: `compute_npv(hg, rg)`.  The amortization ledger
`rows` and the current `exit_year` are the globals the function reads; the
module-level script passes the ledger built once at the initial exit year. -/
def compute_npv (p : Params) (rows : List Row) (exit_year : ℕ) (hg rg : ℚ) : ℚ × ℚ :=
  let cfb := addLast (cf_buy_base p rows exit_year)
    (p.price * (1 + hg / 100) ^ exit_year * (1 - p.sell_commission / 100))
  let cfr := addLast (cfRentBase p.rent0 rg exit_year)
    (p.price * p.down_pct * (1 + p.inv_return / 100) ^ exit_year)
  (npv (real_disc p.disc p.inflation) cfb, npv (real_disc p.disc p.inflation) cfr)

/-- The ledger the script would build with `exit_year` set to a given horizon
(app.py lines 57-66). -/
def schedOf (p : Params) (exit_year : ℕ) : List Row :=
  sched p.price p.loanAmt p.emiVal p.r (exit_year * 12)

/-- The full pipeline recomputed fresh for a horizon: schedule to that horizon,
then cash flows and NPV. -/
def pipeline (p : Params) (exit_year : ℕ) (hg rg : ℚ) : ℚ × ℚ :=
  compute_npv p (schedOf p exit_year) exit_year hg rg

/-- One iteration of the holding-period sweep (app.py lines 182-184): the
global `exit_year` is reassigned to `y` but `sched` still holds the ledger
built at the initial exit year `e0`. -/
def sweepEntry (p : Params) (e0 y : ℕ) (hg rg : ℚ) : ℚ × ℚ :=
  compute_npv p (schedOf p e0) y hg rg

/-- Spec-words NPV of the rent path: a series indexed 0..H whose index-0 entry
is zero, the year-y rent outflow discounted by `(1+rate/100)^y`, and the
terminal investment added at index H. -/
def npvRentSpecWindow (rent0 rg rate invest : ℚ) (H : ℕ) : ℚ :=
  (∑ y in Finset.Icc 1 H, -(rent0 * (1 + rg / 100) ^ y * 12) / (1 + rate / 100) ^ y) +
    invest / (1 + rate / 100) ^ H

/-- A parameter set chosen so the ledger is exact powers of two: the loan is
16777215 = 2^24 − 1 at 100% monthly interest (loan_rate = 1200) over 24
months, so EMI = 2^24 and the balance after month m is 2^24 − 2^m. -/
def pClean : Params :=
  { price := 16777215, down_pct := 0, loan_rate := 1200, tenure := 2, rent0 := 1000
  , inv_return := 0, inflation := 0, disc := 0, buy_commission := 0
  , sell_commission := 0, maintenance_pct := 0, tax_rate := 30
  , interest_deduction := 1000000000000000000, principal_deduction := 1000000000000000000 }

/-! ### General lemmas about the embedded operations -/

lemma map_range_getD {α : Type} (f : ℕ → α) (H i : ℕ) (d : α) (h : i < H) :
    ((List.range H).map f).getD i d = f i := by
  rw [List.getD_eq_getElem?_getD]
  simp [List.getElem?_map, List.getElem?_range h]

lemma sched_getD (price la e r : ℚ) (H i : ℕ) (h : i < H) :
    (sched price la e r H).getD i default = rowAt price la e r (i + 1) := by
  rw [sched, map_range_getD _ _ _ _ h]

lemma sum_filter_map_range (g : ℕ → Row) (q : Row → Bool) (f : Row → ℚ) (H : ℕ) :
    ((((List.range H).map g).filter q).map f).sum
      = ∑ i in Finset.range H, if q (g i) = true then f (g i) else 0 := by
  induction H with
  | zero => simp
  | succ n ih =>
    rw [List.range_succ, List.map_append, List.filter_append, List.map_append,
      List.sum_append, ih, Finset.sum_range_succ]
    cases h : q (g n) <;> simp [h]

lemma window_mem_iff (y m : ℕ) (hy : 1 ≤ y) :
    ((y:ℚ) - 1 ≤ (m:ℚ) / 12 ∧ (m:ℚ) / 12 ≤ (y:ℚ)) ↔ (12*(y-1) ≤ m ∧ m ≤ 12*y) := by
  have h12 : (0:ℚ) < 12 := by norm_num
  have e1 : ((12*(y-1) : ℕ) : ℚ) = ((y:ℚ) - 1) * 12 := by
    rw [Nat.cast_mul, Nat.cast_sub hy]
    push_cast
    ring
  have e2 : ((12*y : ℕ) : ℚ) = (y:ℚ) * 12 := by push_cast; ring
  rw [le_div_iff₀ h12, div_le_iff₀ h12, ← e1, ← e2, Nat.cast_le, Nat.cast_le]

lemma window_mem_iff_half (y m : ℕ) (hy : 1 ≤ y) :
    ((y:ℚ) - 1 < (m:ℚ) / 12 ∧ (m:ℚ) / 12 ≤ (y:ℚ)) ↔ (12*(y-1) < m ∧ m ≤ 12*y) := by
  have h12 : (0:ℚ) < 12 := by norm_num
  have e1 : ((12*(y-1) : ℕ) : ℚ) = ((y:ℚ) - 1) * 12 := by
    rw [Nat.cast_mul, Nat.cast_sub hy]
    push_cast
    ring
  have e2 : ((12*y : ℕ) : ℚ) = (y:ℚ) * 12 := by push_cast; ring
  rw [lt_div_iff₀ h12, div_le_iff₀ h12, ← e1, ← e2, Nat.cast_lt, Nat.cast_le]

lemma yearSum_eq_winSum (price la e r : ℚ) (f : Row → ℚ) (H y : ℕ) (hy : 1 ≤ y) :
    (((sched price la e r H).filter
        (fun row => decide ((y:ℚ) - 1 ≤ row.year ∧ row.year ≤ (y:ℚ)))).map f).sum
      = ∑ i in Finset.range H,
          if 12*(y-1) ≤ i+1 ∧ i+1 ≤ 12*y then f (rowAt price la e r (i+1)) else 0 := by
  rw [sched, sum_filter_map_range]
  refine Finset.sum_congr rfl fun i _ => ?_
  simp only [rowAt, decide_eq_true_eq]
  exact if_congr (window_mem_iff y (i+1) hy) rfl rfl

lemma yearSum_eq_winSum_half (price la e r : ℚ) (f : Row → ℚ) (H y : ℕ) (hy : 1 ≤ y) :
    (((sched price la e r H).filter
        (fun row => decide ((y:ℚ) - 1 < row.year ∧ row.year ≤ (y:ℚ)))).map f).sum
      = ∑ i in Finset.range H,
          if 12*(y-1) < i+1 ∧ i+1 ≤ 12*y then f (rowAt price la e r (i+1)) else 0 := by
  rw [sched, sum_filter_map_range]
  refine Finset.sum_congr rfl fun i _ => ?_
  simp only [rowAt, decide_eq_true_eq]
  exact if_congr (window_mem_iff_half y (i+1) hy) rfl rfl

lemma winSum_split (f : ℕ → ℚ) (H a b : ℕ) (ha : 1 ≤ a) (hab : a ≤ b) (haH : a ≤ H) :
    (∑ i in Finset.range H, if a ≤ i+1 ∧ i+1 ≤ b then f (i+1) else 0)
      = (∑ i in Finset.range H, if a < i+1 ∧ i+1 ≤ b then f (i+1) else 0) + f a := by
  have key : ∀ i ∈ Finset.range H,
      (if a ≤ i+1 ∧ i+1 ≤ b then f (i+1) else 0)
        = (if a < i+1 ∧ i+1 ≤ b then f (i+1) else 0) + (if i = a-1 then f (i+1) else 0) := by
    intro i _
    by_cases h1 : i = a - 1
    · subst h1
      have h2 : a - 1 + 1 = a := Nat.sub_add_cancel ha
      rw [h2]
      simp [hab, lt_irrefl]
    · have h2 : ¬ (i + 1 = a) := by omega
      by_cases h3 : a < i + 1
      · simp [h1, h3, le_of_lt h3]
      · have h4 : ¬ a ≤ i + 1 := by omega
        simp [h1, h3, h4]
  rw [Finset.sum_congr rfl key, Finset.sum_add_distrib]
  congr 1
  rw [Finset.sum_ite_eq' (Finset.range H) (a-1) (fun i => f (i+1))]
  have hmem : a - 1 ∈ Finset.range H := Finset.mem_range.mpr (by omega)
  simp [hmem, Nat.sub_add_cancel ha]

lemma npvAux_append_single (base : ℚ) (l : List ℚ) (x : ℚ) (j : ℕ) :
    npvAux base j (l ++ [x]) = npvAux base j l + x / base ^ (j + l.length) := by
  induction l generalizing j with
  | nil => simp [npvAux]
  | cons c t ih =>
    rw [List.cons_append, npvAux, npvAux, ih (j+1)]
    rw [show j + (c :: t).length = j + 1 + t.length from by simp; omega]
    ring

lemma npvAux_map_range (base : ℚ) (f : ℕ → ℚ) (n j : ℕ) :
    npvAux base j ((List.range n).map f) = ∑ i in Finset.range n, f i / base ^ (j + i) := by
  induction n with
  | zero => simp [npvAux]
  | succ k ih =>
    rw [List.range_succ, List.map_append, List.map_singleton, npvAux_append_single, ih,
      Finset.sum_range_succ, List.length_map, List.length_range]

lemma npvAux_one (l : List ℚ) (j : ℕ) : npvAux 1 j l = l.sum := by
  induction l generalizing j with
  | nil => simp [npvAux]
  | cons c t ih => rw [npvAux, ih (j+1), List.sum_cons, one_pow, div_one]

lemma npv_zero_rate (l : List ℚ) : npv 0 l = l.sum := by
  rw [npv, show (1 + (0:ℚ)/100) = 1 from by norm_num, npvAux_one]

lemma addLast_append_single (l : List ℚ) (a x : ℚ) : addLast (l ++ [a]) x = l ++ [a + x] := by
  induction l with
  | nil => rfl
  | cons c t ih =>
    rcases t with _ | ⟨d, t2⟩
    · rfl
    · simp only [List.cons_append] at ih ⊢
      rw [addLast, ih]

lemma balanceAt_clean (m : ℕ) : balanceAt 16777215 16777216 1 m = 16777216 - 2^m := by
  induction m with
  | zero => rw [balanceAt]; norm_num
  | succ k ih => rw [balanceAt, ih]; ring

lemma one_lt_pow_of_rate (r : ℚ) (N : ℕ) (hr : 0 < r) (hN : 0 < N) : 1 < (1+r)^N :=
  one_lt_pow₀ (by linarith) (by omega)

lemma la_mul_r_le_emi (la r : ℚ) (N : ℕ) (hla : 0 ≤ la) (hr : 0 < r) (hN : 0 < N) :
    la * r ≤ emi la r N := by
  have hA : 1 < (1+r)^N := one_lt_pow_of_rate r N hr hN
  rw [emi, le_div_iff₀ (by linarith)]
  nlinarith [mul_nonneg hla hr.le]

lemma balanceAt_le_init (la e r : ℚ) (hr : 0 < r) (he : la * r ≤ e) :
    ∀ m, balanceAt la e r m ≤ la := by
  intro m
  induction m with
  | zero => rw [balanceAt]
  | succ k ih =>
    rw [balanceAt]
    have h := mul_le_mul_of_nonneg_right ih hr.le
    linarith

lemma balanceAt_mono (la e r : ℚ) (hr : 0 < r) (he : la * r ≤ e) (m : ℕ) :
    balanceAt la e r (m+1) ≤ balanceAt la e r m := by
  rw [balanceAt]
  have h := mul_le_mul_of_nonneg_right (balanceAt_le_init la e r hr he m) hr.le
  linarith

/-! ### Claim theorems -/

/-- C5: for every principal P ≥ 0, monthly rate r > 0 and term N > 0 months,
the computed monthly payment equals P·r·(1+r)^N / ((1+r)^N − 1); the
denominator is nonzero, so EMI·((1+r)^N − 1) = P·r·(1+r)^N exactly (this is
the formula the concrete scenario instantiates). -/
theorem emi_annuity_formula (P r : ℚ) (N : ℕ) (hP : 0 ≤ P) (hr : 0 < r) (hN : 0 < N) :
    (1+r)^N - 1 ≠ 0 ∧ emi P r N = P * r * (1+r)^N / ((1+r)^N - 1) ∧
      emi P r N * ((1+r)^N - 1) = P * r * (1+r)^N := by
  have hA : 1 < (1+r)^N := one_lt_pow_of_rate r N hr hN
  have hne : (1+r)^N - 1 ≠ 0 := sub_ne_zero_of_ne (ne_of_gt hA)
  exact ⟨hne, rfl, by rw [emi, div_mul_cancel₀ _ hne]⟩

/-- Witness for C5 at the spec's concrete scenario: P = 6,400,000,
r = 0.085/12 = 17/2400, N = 240. -/
theorem emi_annuity_formula_witness :
    ((1:ℚ) + 17/2400)^240 - 1 ≠ 0 ∧
      emi 6400000 (17/2400) 240
        = 6400000 * (17/2400) * (1 + 17/2400)^240 / ((1 + 17/2400)^240 - 1) ∧
      emi 6400000 (17/2400) 240 * ((1 + 17/2400)^240 - 1)
        = 6400000 * (17/2400) * (1 + 17/2400)^240 :=
  emi_annuity_formula 6400000 (17/2400) 240 (by norm_num) (by norm_num) (by norm_num)

/-- C6: for every month m in 1..H of the schedule, the emitted row satisfies
interest + principal = EMI and balance_m = balance_{m−1} − principal, with
balance_0 equal to the loan principal. -/
theorem sched_row_recurrence (price la e r : ℚ) (H m : ℕ) (h1 : 1 ≤ m) (h2 : m ≤ H) :
    balanceAt la e r 0 = la ∧
    ((sched price la e r H).getD (m-1) default).interest
        + ((sched price la e r H).getD (m-1) default).principal = e ∧
    ((sched price la e r H).getD (m-1) default).balance
        = balanceAt la e r (m-1) - ((sched price la e r H).getD (m-1) default).principal := by
  obtain ⟨k, rfl⟩ : ∃ k, m = k + 1 := ⟨m - 1, by omega⟩
  have h : k < H := by omega
  rw [show k + 1 - 1 = k from rfl, sched_getD price la e r H k h]
  refine ⟨rfl, ?_, ?_⟩
  · simp only [rowAt, Nat.add_sub_cancel]
    ring
  · simp only [rowAt, Nat.add_sub_cancel]
    rw [balanceAt]

/-- Witness for C6 at a concrete loan (price 8,000,000, loan 6,400,000,
EMI 55,539, r = 17/2400, horizon 120 months, month 5). -/
theorem sched_row_recurrence_witness :
    balanceAt 6400000 55539 (17/2400) 0 = 6400000 ∧
    ((sched 8000000 6400000 55539 (17/2400) 120).getD 4 default).interest
        + ((sched 8000000 6400000 55539 (17/2400) 120).getD 4 default).principal = 55539 ∧
    ((sched 8000000 6400000 55539 (17/2400) 120).getD 4 default).balance
        = balanceAt 6400000 55539 (17/2400) 4
          - ((sched 8000000 6400000 55539 (17/2400) 120).getD 4 default).principal :=
  sched_row_recurrence 8000000 6400000 55539 (17/2400) 120 5 (by norm_num) (by norm_num)

/-- C7: for every row of the schedule, equity + balance = house price. -/
theorem equity_plus_balance (price la e r : ℚ) (H i : ℕ) (h : i < H) :
    ((sched price la e r H).getD i default).equity
      + ((sched price la e r H).getD i default).balance = price := by
  rw [sched_getD price la e r H i h]
  simp only [rowAt]
  ring

/-- Witness for C7 at the same concrete loan, row 3. -/
theorem equity_plus_balance_witness :
    ((sched 8000000 6400000 55539 (17/2400) 120).getD 3 default).equity
      + ((sched 8000000 6400000 55539 (17/2400) 120).getD 3 default).balance = 8000000 :=
  equity_plus_balance 8000000 6400000 55539 (17/2400) 120 3 (by norm_num)

/-- C8: for every year y in 1..H, the rent-path cash flow for year y (the
entry at index y−1 of the list built before the terminal investment
adjustment) equals −12·rent0·(1+rg/100)^y: growth is applied retroactively,
so year 1 is already grown by one year's rate. -/
theorem rent_cashflow_retroactive_growth (rent0 rg : ℚ) (H y : ℕ) (h1 : 1 ≤ y) (h2 : y ≤ H) :
    (cfRentBase rent0 rg H).getD (y-1) 0 = -(12 * rent0 * (1 + rg/100)^y) := by
  rw [cfRentBase, map_range_getD _ _ _ _ (by omega : y - 1 < H), Nat.sub_add_cancel h1]
  ring

/-- Witness for C8 at the spec's concrete scenario: rent0 = 25,000, rg = 5%,
horizon 1 year; the year-1 entry is −315,000. -/
theorem rent_cashflow_retroactive_growth_witness :
    (cfRentBase 25000 5 1).getD 0 0 = -(12 * 25000 * ((1:ℚ) + 5/100)^1) ∧
      -(12 * (25000:ℚ) * (1 + 5/100)^1) = -315000 :=
  ⟨rent_cashflow_retroactive_growth 25000 5 1 1 (by norm_num) (by norm_num), by norm_num⟩

/-- C9: for non-negative interest, principal and caps, the tax saving equals
(min(interest, icap) + min(principal, pcap))·rate/100 (the rate is a
percentage), is non-decreasing in the tax rate, and saturates at
(icap + pcap)·rate/100 once interest and principal exceed their caps. -/
theorem tax_saving_capped_formula (interest principal icap pcap : ℚ)
    (hi : 0 ≤ interest) (hp : 0 ≤ principal) (hic : 0 ≤ icap) (hpc : 0 ≤ pcap) :
    (∀ t, tax_saving interest principal icap pcap t
        = (min interest icap + min principal pcap) * t / 100) ∧
    (∀ t1 t2, t1 ≤ t2 → tax_saving interest principal icap pcap t1
        ≤ tax_saving interest principal icap pcap t2) ∧
    (∀ t, icap ≤ interest → pcap ≤ principal →
        tax_saving interest principal icap pcap t = (icap + pcap) * t / 100) := by
  have hS : 0 ≤ min interest icap + min principal pcap :=
    add_nonneg (le_min hi hic) (le_min hp hpc)
  refine ⟨fun t => rfl, fun t1 t2 ht => ?_, fun t hI hP => ?_⟩
  · have h := mul_le_mul_of_nonneg_left ht hS
    rw [tax_saving, tax_saving]
    linarith
  · rw [tax_saving, min_eq_right hI, min_eq_right hP]

/-- Witness for C9: interest 250,000 and principal 200,000 exceed the caps
200,000 and 150,000, so the saving saturates at (200,000+150,000)·30/100, and
raising the rate from 10 to 30 does not decrease it. -/
theorem tax_saving_capped_formula_witness :
    tax_saving 250000 200000 200000 150000 30 = ((200000:ℚ) + 150000) * 30 / 100 ∧
      tax_saving 250000 200000 200000 150000 10 ≤ tax_saving 250000 200000 200000 150000 30 :=
  ⟨(tax_saving_capped_formula 250000 200000 200000 150000 (by norm_num) (by norm_num)
      (by norm_num) (by norm_num)).2.2 30 (by norm_num) (by norm_num),
   (tax_saving_capped_formula 250000 200000 200000 150000 (by norm_num) (by norm_num)
      (by norm_num) (by norm_num)).2.1 10 30 (by norm_num)⟩

/-- C10: for every loan with principal ≥ 0, monthly rate r > 0 and term
N > 0, the balance is non-increasing month over month, for all emitted months
(the recurrence balance, and hence the Balance column of consecutive emitted
rows, never increases). -/
theorem balance_nonincreasing (la r : ℚ) (N : ℕ) (hla : 0 ≤ la) (hr : 0 < r) (hN : 0 < N) :
    (∀ m : ℕ, balanceAt la (emi la r N) r (m+1) ≤ balanceAt la (emi la r N) r m) ∧
    (∀ (price : ℚ) (H i : ℕ), i + 1 < H →
      ((sched price la (emi la r N) r H).getD (i+1) default).balance
        ≤ ((sched price la (emi la r N) r H).getD i default).balance) := by
  have he := la_mul_r_le_emi la r N hla hr hN
  constructor
  · exact fun m => balanceAt_mono la (emi la r N) r hr he m
  · intro price H i h
    rw [sched_getD _ _ _ _ _ _ h, sched_getD _ _ _ _ _ _ (by omega : i < H)]
    simp only [rowAt]
    exact balanceAt_mono la (emi la r N) r hr he (i+1)

/-- Witness for C10 at the spec's concrete loan, months 5 → 6. -/
theorem balance_nonincreasing_witness :
    balanceAt 6400000 (emi 6400000 (17/2400) 240) (17/2400) 6
      ≤ balanceAt 6400000 (emi 6400000 (17/2400) 240) (17/2400) 5 :=
  (balance_nonincreasing 6400000 (17/2400) 240 (by norm_num) (by norm_num) (by norm_num)).1 5

lemma yearSum_split (price la e r : ℚ) (f : Row → ℚ) (H y : ℕ) (hy : 2 ≤ y)
    (hH : 12*(y-1) ≤ H) :
    (((sched price la e r H).filter
        (fun row => decide ((y:ℚ) - 1 ≤ row.year ∧ row.year ≤ (y:ℚ)))).map f).sum
      = (((sched price la e r H).filter
          (fun row => decide ((y:ℚ) - 1 < row.year ∧ row.year ≤ (y:ℚ)))).map f).sum
        + f (rowAt price la e r (12*(y-1))) := by
  rw [yearSum_eq_winSum price la e r f H y (by omega),
    yearSum_eq_winSum_half price la e r f H y (by omega)]
  exact winSum_split (fun m => f (rowAt price la e r m)) H (12*(y-1)) (12*y)
    (by omega) (by omega) hH

/-- C1 (amended): the aggregates used for the tax-saving computation use the
inclusive window [y−1, y] (pandas `between`), not the half-open window
(y−1, y]: for every year y ≥ 2 whose boundary month 12(y−1) is within the
emitted schedule, the inclusive aggregate equals the half-open aggregate plus
the boundary month's interest (resp. principal), so that boundary row is
counted in both windows y−1 and y. -/
theorem year_window_double_count (price la e r : ℚ) (H y : ℕ) (hy : 2 ≤ y)
    (hH : 12*(y-1) ≤ H) :
    interestYear (sched price la e r H) (y:ℚ)
      = interestYearHalfOpen (sched price la e r H) (y:ℚ)
        + (rowAt price la e r (12*(y-1))).interest ∧
    principalYear (sched price la e r H) (y:ℚ)
      = principalYearHalfOpen (sched price la e r H) (y:ℚ)
        + (rowAt price la e r (12*(y-1))).principal :=
  ⟨yearSum_split price la e r Row.interest H y hy hH,
   yearSum_split price la e r Row.principal H y hy hH⟩

/-- Witness for C1 (amended) at the clean powers-of-two loan, year 2 of a
24-month schedule. -/
theorem year_window_double_count_witness :
    interestYear (sched 16777215 16777215 16777216 1 24) ((2:ℕ):ℚ)
      = interestYearHalfOpen (sched 16777215 16777215 16777216 1 24) ((2:ℕ):ℚ)
        + (rowAt 16777215 16777215 16777216 1 12).interest ∧
    principalYear (sched 16777215 16777215 16777216 1 24) ((2:ℕ):ℚ)
      = principalYearHalfOpen (sched 16777215 16777215 16777216 1 24) ((2:ℕ):ℚ)
        + (rowAt 16777215 16777215 16777216 1 12).principal :=
  year_window_double_count 16777215 16777215 16777216 1 24 2 (by norm_num) (by norm_num)

/-- Counterexample to C1 as stated: at the clean powers-of-two parameter set
with exit year 2, the year-2 interest aggregate the code computes differs
from the sum over the half-open window (1, 2], because the month-12 row
(year-fraction exactly 1) is included in the code's window. -/
theorem year_window_not_half_open :
    interestYear (schedOf pClean 2) 2 ≠ interestYearHalfOpen (schedOf pClean 2) 2 := by
  have hsched : schedOf pClean 2 = sched 16777215 16777215 16777216 1 24 := by
    rw [schedOf]
    norm_num [pClean, Params.loanAmt, Params.emiVal, Params.r, loan_amt, emi]
  have hsplit : interestYear (sched 16777215 16777215 16777216 1 24) ((2:ℕ):ℚ)
      = interestYearHalfOpen (sched 16777215 16777215 16777216 1 24) ((2:ℕ):ℚ)
        + (rowAt 16777215 16777215 16777216 1 12).interest :=
    yearSum_split 16777215 16777215 16777216 1 Row.interest 24 2 (by norm_num) (by norm_num)
  have hcast : ((2:ℕ):ℚ) = (2:ℚ) := by norm_num
  rw [hcast] at hsplit
  have hrow : (rowAt 16777215 16777215 16777216 1 12).interest = 16775168 := by
    simp only [rowAt]
    rw [show (12:ℕ) - 1 = 11 from rfl, balanceAt_clean]
    norm_num
  rw [hsched]
  intro h
  rw [h, hrow] at hsplit
  linarith

/-- C2 (amended): the rent cash-flow list has no index-0 zero entry; it is
indexed 0..H−1 with entry i the year-(i+1) rent outflow, so the NPV of the
rent path discounts the year-y outflow by (1+real/100)^(y−1) — the year-1
outflow is undiscounted — and the terminal investment by
(1+real/100)^(H−1). -/
theorem rent_npv_discount_off_by_one (rent0 rg rate invest : ℚ) (H : ℕ) (hH : 1 ≤ H) :
    npv rate (addLast (cfRentBase rent0 rg H) invest)
      = (∑ i in Finset.range H, -(rent0 * (1 + rg/100) ^ (i+1) * 12) / (1 + rate/100) ^ i)
        + invest / (1 + rate/100) ^ (H-1) := by
  obtain ⟨K, rfl⟩ : ∃ K, H = K + 1 := ⟨H - 1, by omega⟩
  rw [cfRentBase, List.range_succ, List.map_append, List.map_singleton, addLast_append_single]
  rw [npv, npvAux_append_single, npvAux_map_range, List.length_map, List.length_range]
  rw [Finset.sum_range_succ, show K + 1 - 1 = K from rfl]
  simp only [zero_add]
  ring

/-- Witness for C2 (amended) at rent0 = 25,000, rg = 5, rate = 20/7 (the
real rate for disc = 8, inflation = 5), invest = 1,760,000, H = 1. -/
theorem rent_npv_discount_off_by_one_witness :
    npv (20/7) (addLast (cfRentBase 25000 5 1) 1760000)
      = (∑ i in Finset.range 1,
          -(25000 * ((1:ℚ) + 5/100) ^ (i+1) * 12) / (1 + (20/7)/100) ^ i)
        + 1760000 / ((1:ℚ) + (20/7)/100) ^ (1-1) :=
  rent_npv_discount_off_by_one 25000 5 (20/7) 1760000 1 (by norm_num)

/-- Counterexample to C2 as stated: with rent0 = 25,000, rg = 5, horizon 1,
investment 1,760,000 and real rate 20/7 (from disc = 8, inflation = 5), the
code's rent NPV is the undiscounted 1,445,000 while the spec-words series
(index 0 zero, year y discounted by (1+real)^y) gives 1,445,000·35/36. -/
theorem rent_npv_not_spec_window :
    npv (real_disc 8 5) (addLast (cfRentBase 25000 5 1) 1760000)
      ≠ npvRentSpecWindow 25000 5 (real_disc 8 5) 1760000 1 := by
  have hrd : real_disc 8 5 = 20/7 := by norm_num [real_disc]
  rw [hrd]
  simp only [cfRentBase]
  rw [show List.range 1 = [0] from rfl]
  simp only [List.map_cons, List.map_nil, addLast, npv, npvAux,
    npvRentSpecWindow, Finset.Icc_self, Finset.sum_singleton]
  norm_num

lemma emiOpt_neg_twelve (la r : ℚ) (hla : 0 < la) (hr : 0 < r) :
    ∃ q, emiOpt la r (-12) = some q ∧ q < 0 := by
  have h1r : (0:ℚ) < 1 + r := by linarith
  have hpow : 1 < (1+r)^(12:ℕ) := one_lt_pow₀ (by linarith) (by norm_num)
  have hA : (1+r)^(-12:ℤ) = ((1+r)^(12:ℕ))⁻¹ := by
    rw [show (-12:ℤ) = -((12:ℕ):ℤ) from by norm_num, zpow_neg, zpow_natCast]
  have hApos : 0 < (1+r)^(-12:ℤ) := zpow_pos h1r _
  have hAlt : (1+r)^(-12:ℤ) < 1 := by rw [hA]; exact inv_lt_one_of_one_lt₀ hpow
  refine ⟨la * r * (1+r)^(-12:ℤ) / ((1+r)^(-12:ℤ) - 1), ?_, ?_⟩
  · rw [emiOpt, if_neg (fun h => by linarith [h.1]), if_neg (fun h => by linarith)]
  · exact div_neg_of_pos_of_neg (mul_pos (mul_pos hla hr) hApos) (by linarith)

/-- C4 (amended): the script performs no input validation.  A negative
tenure of −1 year (n = −12 months) is accepted and silently yields a
negative EMI; a zero tenure is only caught as a division-by-zero inside the
EMI formula itself; inflation = −100 is only caught as a division-by-zero
inside the real-discount-rate computation, after the cash-flow loop — none
of these is a structured validation failure raised before iteration. -/
theorem no_input_validation (la r d : ℚ) (hla : 0 < la) (hr : 0 < r) :
    (∃ q, emiOpt la r (-12) = some q ∧ q < 0) ∧
      emiOpt la r 0 = none ∧ real_discOpt d (-100) = none := by
  refine ⟨emiOpt_neg_twelve la r hla hr, ?_, ?_⟩
  · rw [emiOpt, if_neg (fun h => absurd h.2 (lt_irrefl 0)), if_pos (by simp)]
  · rw [real_discOpt, if_pos (by norm_num)]

/-- Witness for C4 (amended) at the spec's loan: P = 6,400,000, r = 17/2400,
disc = 8. -/
theorem no_input_validation_witness :
    (∃ q, emiOpt 6400000 (17/2400) (-12) = some q ∧ q < 0) ∧
      emiOpt 6400000 (17/2400) 0 = none ∧ real_discOpt 8 (-100) = none :=
  no_input_validation 6400000 (17/2400) 8 (by norm_num) (by norm_num)

/-- Counterexample to C4 as stated: the invalid input tenure = −1 year
(n = 12·(−1) months) is not surfaced as a failure — the EMI computation
returns a value (a negative payment) instead. -/
theorem invalid_tenure_not_rejected :
    ∃ q, emiOpt 6400000 (17/2400) (12 * (-1)) = some q ∧ q < 0 :=
  emiOpt_neg_twelve 6400000 (17/2400) (by norm_num) (by norm_num)

lemma cleanAggI (H yn : ℕ) (yq v : ℚ) (hyq : yq = (yn:ℚ)) (hy : 1 ≤ yn)
    (hv : (∑ i in Finset.range H,
      if 12*(yn-1) ≤ i+1 ∧ i+1 ≤ 12*yn then (16777216 - 2^i : ℚ) else 0) = v) :
    interestYear (sched 16777215 16777215 16777216 1 H) yq = v := by
  rw [hyq]
  have h : interestYear (sched 16777215 16777215 16777216 1 H) ((yn:ℕ):ℚ)
      = ∑ i in Finset.range H, if 12*(yn-1) ≤ i+1 ∧ i+1 ≤ 12*yn
          then Row.interest (rowAt 16777215 16777215 16777216 1 (i+1)) else 0 :=
    yearSum_eq_winSum 16777215 16777215 16777216 1 Row.interest H yn hy
  rw [h, ← hv]
  refine Finset.sum_congr rfl fun i _ => ?_
  refine if_congr Iff.rfl ?_ rfl
  simp only [rowAt, Nat.add_sub_cancel, balanceAt_clean]
  ring

lemma cleanAggP (H yn : ℕ) (yq v : ℚ) (hyq : yq = (yn:ℚ)) (hy : 1 ≤ yn)
    (hv : (∑ i in Finset.range H,
      if 12*(yn-1) ≤ i+1 ∧ i+1 ≤ 12*yn then (2^i : ℚ) else 0) = v) :
    principalYear (sched 16777215 16777215 16777216 1 H) yq = v := by
  rw [hyq]
  have h : principalYear (sched 16777215 16777215 16777216 1 H) ((yn:ℕ):ℚ)
      = ∑ i in Finset.range H, if 12*(yn-1) ≤ i+1 ∧ i+1 ≤ 12*yn
          then Row.principal (rowAt 16777215 16777215 16777216 1 (i+1)) else 0 :=
    yearSum_eq_winSum 16777215 16777215 16777216 1 Row.principal H yn hy
  rw [h, ← hv]
  refine Finset.sum_congr rfl fun i _ => ?_
  refine if_congr Iff.rfl ?_ rfl
  simp only [rowAt, Nat.add_sub_cancel, balanceAt_clean]
  ring

lemma stale_buy_val : (sweepEntry pClean 3 4 0 0).1 = -2961178629/5 := by
  have hI1 : interestYear (sched 16777215 16777215 16777216 1 36) (1:ℚ) = 201322497 :=
    cleanAggI 36 1 1 201322497 (by norm_num) (by norm_num) (by norm_num [Finset.sum_range_succ])
  have hI2 : interestYear (sched 16777215 16777215 16777216 1 36) (2:ℚ) = 201328640 :=
    cleanAggI 36 2 2 201328640 (by norm_num) (by norm_num) (by norm_num [Finset.sum_range_succ])
  have hI3 : interestYear (sched 16777215 16777215 16777216 1 36) (3:ℚ) = -68492984320 :=
    cleanAggI 36 3 3 (-68492984320) (by norm_num) (by norm_num)
      (by norm_num [Finset.sum_range_succ])
  have hI4 : interestYear (sched 16777215 16777215 16777216 1 36) (4:ℚ) = -34342961152 :=
    cleanAggI 36 4 4 (-34342961152) (by norm_num) (by norm_num)
      (by norm_num [Finset.sum_range_succ])
  have hP1 : principalYear (sched 16777215 16777215 16777216 1 36) (1:ℚ) = 4095 :=
    cleanAggP 36 1 1 4095 (by norm_num) (by norm_num) (by norm_num [Finset.sum_range_succ])
  have hP2 : principalYear (sched 16777215 16777215 16777216 1 36) (2:ℚ) = 16775168 :=
    cleanAggP 36 2 2 16775168 (by norm_num) (by norm_num) (by norm_num [Finset.sum_range_succ])
  have hP3 : principalYear (sched 16777215 16777215 16777216 1 36) (3:ℚ) = 68711088128 :=
    cleanAggP 36 3 3 68711088128 (by norm_num) (by norm_num)
      (by norm_num [Finset.sum_range_succ])
  have hP4 : principalYear (sched 16777215 16777215 16777216 1 36) (4:ℚ) = 34359738368 :=
    cleanAggP 36 4 4 34359738368 (by norm_num) (by norm_num)
      (by norm_num [Finset.sum_range_succ])
  have hsched3 : schedOf pClean 3 = sched 16777215 16777215 16777216 1 36 := by
    rw [schedOf]
    norm_num [pClean, Params.loanAmt, Params.emiVal, Params.r, loan_amt, emi]
  have hrd0 : real_disc pClean.disc pClean.inflation = 0 := by
    norm_num [real_disc, pClean]
  simp only [sweepEntry, compute_npv, hsched3, hrd0]
  rw [npv_zero_rate]
  simp only [cf_buy_base]
  rw [show List.range 4 = [0,1,2,3] from rfl]
  simp only [List.map_cons, List.map_nil, addLast, List.sum_cons, List.sum_nil]
  norm_num [pClean, Params.emiVal, Params.loanAmt, Params.r, loan_amt, emi, tax_saving,
    hI1, hI2, hI3, hI4, hP1, hP2, hP3, hP4, min_def]

lemma fresh_buy_val : (pipeline pClean 4 0 0).1 = -2659188741/5 := by
  have hI1 : interestYear (sched 16777215 16777215 16777216 1 48) (1:ℚ) = 201322497 :=
    cleanAggI 48 1 1 201322497 (by norm_num) (by norm_num) (by norm_num [Finset.sum_range_succ])
  have hI2 : interestYear (sched 16777215 16777215 16777216 1 48) (2:ℚ) = 201328640 :=
    cleanAggI 48 2 2 201328640 (by norm_num) (by norm_num) (by norm_num [Finset.sum_range_succ])
  have hI3 : interestYear (sched 16777215 16777215 16777216 1 48) (3:ℚ) = -68492984320 :=
    cleanAggI 48 3 3 (-68492984320) (by norm_num) (by norm_num)
      (by norm_num [Finset.sum_range_succ])
  have hI4 : interestYear (sched 16777215 16777215 16777216 1 48) (4:ℚ) = -281440398868480 :=
    cleanAggI 48 4 4 (-281440398868480) (by norm_num) (by norm_num)
      (by norm_num [Finset.sum_range_succ])
  have hP1 : principalYear (sched 16777215 16777215 16777216 1 48) (1:ℚ) = 4095 :=
    cleanAggP 48 1 1 4095 (by norm_num) (by norm_num) (by norm_num [Finset.sum_range_succ])
  have hP2 : principalYear (sched 16777215 16777215 16777216 1 48) (2:ℚ) = 16775168 :=
    cleanAggP 48 2 2 16775168 (by norm_num) (by norm_num) (by norm_num [Finset.sum_range_succ])
  have hP3 : principalYear (sched 16777215 16777215 16777216 1 48) (3:ℚ) = 68711088128 :=
    cleanAggP 48 3 3 68711088128 (by norm_num) (by norm_num)
      (by norm_num [Finset.sum_range_succ])
  have hP4 : principalYear (sched 16777215 16777215 16777216 1 48) (4:ℚ) = 281440616972288 :=
    cleanAggP 48 4 4 281440616972288 (by norm_num) (by norm_num)
      (by norm_num [Finset.sum_range_succ])
  have hsched4 : schedOf pClean 4 = sched 16777215 16777215 16777216 1 48 := by
    rw [schedOf]
    norm_num [pClean, Params.loanAmt, Params.emiVal, Params.r, loan_amt, emi]
  have hrd0 : real_disc pClean.disc pClean.inflation = 0 := by
    norm_num [real_disc, pClean]
  simp only [pipeline, compute_npv, hsched4, hrd0]
  rw [npv_zero_rate]
  simp only [cf_buy_base]
  rw [show List.range 4 = [0,1,2,3] from rfl]
  simp only [List.map_cons, List.map_nil, addLast, List.sum_cons, List.sum_nil]
  norm_num [pClean, Params.emiVal, Params.loanAmt, Params.r, loan_amt, emi, tax_saving,
    hI1, hI2, hI3, hI4, hP1, hP2, hP3, hP4, min_def]

/-- C3: refuted — the holding-period sweep does not recompute the full
pipeline.  At the clean powers-of-two parameter set with the slider exit
year 3 and sweep horizon 4, the sweep entry (which reuses the 36-month
ledger built at exit year 3) differs from the fresh pipeline at horizon 4
(whose ledger has 48 months): the year-4 tax aggregates see only month 36
instead of months 36..48, so the buy-path NPVs differ. -/
theorem sweep_reuses_stale_schedule : sweepEntry pClean 3 4 0 0 ≠ pipeline pClean 4 0 0 := by
  intro hEq
  have h1 := congrArg Prod.fst hEq
  rw [stale_buy_val, fresh_buy_val] at h1
  norm_num at h1
